import Mathlib

/-!
Verification of the earnings-analyzer dashboard (`src/app.py`) against its
specification. The Python functions relevant to the claims are shallowly
embedded below: `datetime.now()` becomes an explicit `CalDate` argument,
the yfinance / OpenAI network calls become `Except`-typed parameters
(exception string or fetched record), Python `random` draws become explicit
function parameters, Python floats are idealized as rationals, and Python
dictionaries become structures with `Option` fields (`None` = `none`).
String manipulation is re-implemented over `List Char` with the exact
semantics of the Python methods used (`str.replace` replaces every
occurrence; `str.split` keeps empty pieces; `str.strip` trims both ends).
-/

/-- A calendar date as used by `datetime`: year, month, day. -/
structure CalDate where
  year : Int
  month : Nat
  day : Nat
deriving DecidableEq, Repr

/-- Embedding of `get_current_fiscal_period` (src/app.py lines 759-772).
The current date is passed explicitly in place of `datetime.now()`.
Returns (quarter label, fiscal year, quarter end date); the quarter end
`datetime(y, m, d)` is embedded as a `CalDate` with day fields as written. -/
def get_current_fiscal_period (today : CalDate) : String × Int × CalDate :=
  if 7 ≤ today.month then ("Q1", today.year, ⟨today.year, 3, 31⟩)
  else if 10 ≤ today.month then ("Q2", today.year, ⟨today.year, 6, 30⟩)
  else if 12 ≤ today.month then ("Q3", today.year, ⟨today.year, 9, 30⟩)
  else ("Q4", today.year - 1, ⟨today.year - 1, 12, 31⟩)

/-- Strict "earlier than" on calendar dates, lexicographic on
(year, month, day). Used only to state claims about quarter end dates. -/
def dateBefore (a b : CalDate) : Bool :=
  a.year < b.year ∨
    (a.year = b.year ∧ (a.month < b.month ∨ (a.month = b.month ∧ a.day < b.day)))

/-- Modelled from the claim: the fiscal quarter (Q1 ending March 31, Q2
ending June 30, Q3 ending September 30, Q4 ending December 31) whose end
date most recently strictly precedes the given date, with that quarter's
year and end date. This is the claim-side definition, to be compared with
`get_current_fiscal_period` as the source defines it. -/
def most_recently_completed_quarter (d : CalDate) : String × Int × CalDate :=
  if dateBefore ⟨d.year, 12, 31⟩ d then ("Q4", d.year, ⟨d.year, 12, 31⟩)
  else if dateBefore ⟨d.year, 9, 30⟩ d then ("Q3", d.year, ⟨d.year, 9, 30⟩)
  else if dateBefore ⟨d.year, 6, 30⟩ d then ("Q2", d.year, ⟨d.year, 6, 30⟩)
  else if dateBefore ⟨d.year, 3, 31⟩ d then ("Q1", d.year, ⟨d.year, 3, 31⟩)
  else ("Q4", d.year - 1, ⟨d.year - 1, 12, 31⟩)

/-- The function `get_current_fiscal_period` collapses to two outcomes: the two
`elif` tests (`month >= 10`, `month >= 12`) are subsumed by the first test
`month >= 7`, so they never fire. -/
theorem get_current_fiscal_period_eq (d : CalDate) :
    get_current_fiscal_period d =
      if 7 ≤ d.month then ("Q1", d.year, (⟨d.year, 3, 31⟩ : CalDate))
      else ("Q4", d.year - 1, (⟨d.year - 1, 12, 31⟩ : CalDate)) := by
  unfold get_current_fiscal_period
  by_cases h7 : 7 ≤ d.month
  · simp [h7]
  · have h10 : ¬ 10 ≤ d.month := by omega
    have h12 : ¬ 12 ≤ d.month := by omega
    simp [h7, h10, h12]

/-- C8: the branches of `get_current_fiscal_period` returning Q2 and Q3 are
unreachable; for every date, the result is Q1 of the current year (end
March 31) when the month is at least 7, and otherwise Q4 of the previous
year (end December 31); the quarter label is never "Q2" or "Q3". -/
theorem fiscal_period_dead_branches (d : CalDate) :
    (get_current_fiscal_period d =
      if 7 ≤ d.month then ("Q1", d.year, (⟨d.year, 3, 31⟩ : CalDate))
      else ("Q4", d.year - 1, (⟨d.year - 1, 12, 31⟩ : CalDate))) ∧
    (get_current_fiscal_period d).1 ≠ "Q2" ∧
    (get_current_fiscal_period d).1 ≠ "Q3" := by
  refine ⟨get_current_fiscal_period_eq d, ?_, ?_⟩ <;>
    rw [get_current_fiscal_period_eq d] <;>
    by_cases h7 : 7 ≤ d.month <;> simp [h7]

/-- C1, counterexample: on October 15, 2025, the most recently completed
quarter is Q3 2025 (ended September 30, 2025), but the code returns
Q1 2025 (ended March 31, 2025). -/
theorem fiscal_period_not_most_recent :
    get_current_fiscal_period ⟨2025, 10, 15⟩ ≠
      most_recently_completed_quarter ⟨2025, 10, 15⟩ := by
  decide

/-- C1, amended: `get_current_fiscal_period` returns a completed quarter,
but not the most recently completed one: for months July through December
it returns Q1 of the current year with end date March 31, and for months
January through June it returns Q4 of the previous year with end date
December 31; the returned end date always strictly precedes the date. -/
theorem fiscal_period_conservative (d : CalDate) (hm : 1 ≤ d.month) :
    (get_current_fiscal_period d =
      if 7 ≤ d.month then ("Q1", d.year, (⟨d.year, 3, 31⟩ : CalDate))
      else ("Q4", d.year - 1, (⟨d.year - 1, 12, 31⟩ : CalDate))) ∧
    dateBefore (get_current_fiscal_period d).2.2 d = true := by
  refine ⟨get_current_fiscal_period_eq d, ?_⟩
  rw [get_current_fiscal_period_eq d]
  by_cases h7 : 7 ≤ d.month
  · simp only [h7, if_pos]
    simp [dateBefore] <;> omega
  · simp only [h7, if_neg, not_false_iff]
    simp [dateBefore] <;> omega

/-- Witness for `fiscal_period_conservative` at October 15, 2025. -/
theorem fiscal_period_conservative_witness :
    get_current_fiscal_period ⟨2025, 10, 15⟩ =
        ("Q1", (2025 : Int), (⟨2025, 3, 31⟩ : CalDate)) ∧
      dateBefore (get_current_fiscal_period ⟨2025, 10, 15⟩).2.2
        ⟨2025, 10, 15⟩ = true := by
  have h := fiscal_period_conservative ⟨2025, 10, 15⟩ (by decide)
  exact ⟨by rw [h.1]; decide, h.2⟩

/-- The financial-data record assembled by `get_enhanced_financial_data`
and consumed by `validate_financial_data`; Python `None` is `none`, missing
dictionary keys are likewise `none`, floats are rationals. -/
structure FinData where
  revenue : Option ℚ
  eps : Option ℚ
  quarter : Option String
  fiscal_year : Option Int
  quarter_end_date : Option CalDate
  market_cap : Option ℚ
  revenue_growth : Option ℚ
  employees : Option ℚ
  last_updated : CalDate
deriving DecidableEq, Repr

/-- The dictionary returned by `validate_financial_data`. The score is an
integer (Python int); the level and text are the strings chosen by the
threshold branch; issues accumulate in program order. -/
structure Validation where
  score : Int
  level : String
  text : String
  issues : List String
deriving DecidableEq, Repr

/-- The issue string `f"Data is from {fy}, potentially outdated"`. -/
def outdatedMsg (fy : Int) : String :=
  "Data is from " ++ toString fy ++ ", potentially outdated"

/-- The score/issue accumulation of `validate_financial_data`
(src/app.py lines 776-803), in the source's order: presence checks for
revenue, EPS and market cap, then the recency check, which runs only when
both `quarter` and `fiscal_year` are truthy (Python truthiness: a present,
non-empty string resp. a present, non-zero integer) and compares
`fiscal_year` against the year of `get_current_fiscal_period()` at call
time (`today`). -/
def data_quality_score (data : FinData) (today : CalDate) : Int × List String :=
  let s : Int := 0
  let issues : List String := []
  let (s, issues) :=
    if data.revenue.isSome then (s + 30, issues)
    else (s, issues ++ ["Missing revenue data"])
  let (s, issues) :=
    if data.eps.isSome then (s + 30, issues)
    else (s, issues ++ ["Missing EPS data"])
  let (s, issues) :=
    if data.market_cap.isSome then (s + 20, issues)
    else (s, issues ++ ["Missing market cap"])
  match data.quarter, data.fiscal_year with
  | some q, some fy =>
    if q ≠ "" ∧ fy ≠ 0 then
      let current_year := (get_current_fiscal_period today).2.1
      if fy = current_year then (s + 20, issues)
      else if fy = current_year - 1 then (s + 10, issues)
      else (s, issues ++ [outdatedMsg fy])
    else (s, issues)
  | _, _ => (s, issues)

/-- Embedding of `validate_financial_data` (src/app.py lines 774-821):
accumulate the quality score and issues, then pick the level/text by the
two thresholds. `datetime.now()` becomes the explicit `today` argument
(it is consulted through `get_current_fiscal_period`). The unused `ticker`
parameter of the Python function is dropped. -/
def validate_financial_data (data : FinData) (today : CalDate) : Validation :=
  let (quality_score, issues) := data_quality_score data today
  if 80 ≤ quality_score then
    ⟨quality_score, "high", "High Quality", issues⟩
  else if 50 ≤ quality_score then
    ⟨quality_score, "medium", "Medium Quality", issues⟩
  else
    ⟨quality_score, "low", "Limited Data", issues⟩

/-- The recency points of the claim-side decomposition: 20 when the
record's fiscal year is the current one, 10 for the previous one, else 0;
0 as well when the quarter/fiscal-year fields are not truthy. -/
def recency_points (data : FinData) (today : CalDate) : Int :=
  match data.quarter, data.fiscal_year with
  | some q, some fy =>
    if q ≠ "" ∧ fy ≠ 0 then
      if fy = (get_current_fiscal_period today).2.1 then 20
      else if fy = (get_current_fiscal_period today).2.1 - 1 then 10
      else 0
    else 0
  | _, _ => 0

/-- The recency issue of the claim-side decomposition: the "potentially
outdated" message exactly when the truthy fiscal year is older than the
previous fiscal year. -/
def recency_issues (data : FinData) (today : CalDate) : List String :=
  match data.quarter, data.fiscal_year with
  | some q, some fy =>
    if q ≠ "" ∧ fy ≠ 0 then
      if fy = (get_current_fiscal_period today).2.1 then []
      else if fy = (get_current_fiscal_period today).2.1 - 1 then []
      else [outdatedMsg fy]
    else []
  | _, _ => []

/-- The sequential accumulation of `data_quality_score` equals the sum of
four independent contributions, and the issues list is the concatenation
of the matching issue singletons. Shared by the proofs below. -/
theorem data_quality_score_eq (data : FinData) (today : CalDate) :
    data_quality_score data today =
      ((if data.revenue.isSome then 30 else 0) +
        (if data.eps.isSome then 30 else 0) +
        (if data.market_cap.isSome then 20 else 0) +
        recency_points data today,
       (if data.revenue.isSome then [] else ["Missing revenue data"]) ++
        (if data.eps.isSome then [] else ["Missing EPS data"]) ++
        (if data.market_cap.isSome then [] else ["Missing market cap"]) ++
        recency_issues data today) := by
  unfold data_quality_score recency_points recency_issues
  rcases data.quarter with _ | q <;> rcases data.fiscal_year with _ | fy <;>
    rcases hr : data.revenue.isSome <;> rcases he : data.eps.isSome <;>
    rcases hm : data.market_cap.isSome <;>
    simp [hr, he, hm] <;> split_ifs <;> simp <;> ring

/-- The level string as a function of the score alone (the threshold
branch of the source made pointwise). -/
def levelOf (s : Int) : String :=
  if 80 ≤ s then "high" else if 50 ≤ s then "medium" else "low"

/-- In every branch, the returned score is the accumulated score. -/
theorem validate_score_eq (data : FinData) (today : CalDate) :
    (validate_financial_data data today).score =
      (data_quality_score data today).1 := by
  unfold validate_financial_data
  rcases h : data_quality_score data today with ⟨s, iss⟩
  simp only [h]
  split_ifs <;> rfl

/-- In every branch, the returned issues are the accumulated issues. -/
theorem validate_issues_eq (data : FinData) (today : CalDate) :
    (validate_financial_data data today).issues =
      (data_quality_score data today).2 := by
  unfold validate_financial_data
  rcases h : data_quality_score data today with ⟨s, iss⟩
  simp only [h]
  split_ifs <;> rfl

/-- The returned level is a function of the returned score alone. -/
theorem validate_level_eq (data : FinData) (today : CalDate) :
    (validate_financial_data data today).level =
      levelOf (validate_financial_data data today).score := by
  unfold validate_financial_data levelOf
  rcases h : data_quality_score data today with ⟨s, iss⟩
  simp only [h]
  split_ifs <;> simp_all

/-- C2: the quality level is derived from the score by exactly the two
thresholds — "high" iff score ≥ 80, "medium" iff 50 ≤ score < 80, "low"
iff score < 50 — and any two validation results with equal scores have
equal levels, whatever the input records and call dates were. -/
theorem quality_level_thresholds (data : FinData) (today : CalDate) :
    ((validate_financial_data data today).level = "high" ↔
      80 ≤ (validate_financial_data data today).score) ∧
    ((validate_financial_data data today).level = "medium" ↔
      (50 ≤ (validate_financial_data data today).score ∧
        (validate_financial_data data today).score < 80)) ∧
    ((validate_financial_data data today).level = "low" ↔
      (validate_financial_data data today).score < 50) ∧
    (∀ d2 t2, (validate_financial_data d2 t2).score =
        (validate_financial_data data today).score →
      (validate_financial_data d2 t2).level =
        (validate_financial_data data today).level) := by
  refine ⟨?_, ?_, ?_, ?_⟩
  · rw [validate_level_eq]
    unfold levelOf
    split_ifs with h1 h2 <;> simp <;> first | omega | decide
  · rw [validate_level_eq]
    unfold levelOf
    split_ifs with h1 h2 <;> simp <;> first | omega | decide
  · rw [validate_level_eq]
    unfold levelOf
    split_ifs with h1 h2 <;> simp <;> first | omega | decide
  · intro d2 t2 h
    rw [validate_level_eq, validate_level_eq, h]

/-- C3: the score is exactly the sum of the presence points (30 revenue,
30 EPS, 20 market cap) and the recency points (20 current fiscal year,
10 previous), it lies between 0 and 100, and the issues list is exactly
one message per missing field plus the outdated message when the truthy
fiscal year is older than the previous one. -/
theorem validate_score_decomposition (data : FinData) (today : CalDate) :
    (validate_financial_data data today).score =
        (if data.revenue.isSome then 30 else 0) +
        (if data.eps.isSome then 30 else 0) +
        (if data.market_cap.isSome then 20 else 0) +
        recency_points data today ∧
    (0 ≤ recency_points data today ∧ recency_points data today ≤ 20) ∧
    (0 ≤ (validate_financial_data data today).score ∧
      (validate_financial_data data today).score ≤ 100) ∧
    (validate_financial_data data today).issues =
        (if data.revenue.isSome then [] else ["Missing revenue data"]) ++
        (if data.eps.isSome then [] else ["Missing EPS data"]) ++
        (if data.market_cap.isSome then [] else ["Missing market cap"]) ++
        recency_issues data today := by
  have hrec : 0 ≤ recency_points data today ∧ recency_points data today ≤ 20 := by
    unfold recency_points
    rcases data.quarter with _ | q <;> rcases data.fiscal_year with _ | fy <;>
      dsimp only <;>
      first
        | omega
        | (split_ifs <;> omega)
  have hs := validate_score_eq data today
  have hi := validate_issues_eq data today
  rw [data_quality_score_eq] at hs hi
  refine ⟨hs, hrec, ?_, hi⟩
  rw [hs]
  split_ifs <;> omega

/-- C5, counterexample: the same input record validated at two different
dates yields different results — with fiscal year 2024, a call "today" =
July 1, 2024 scores 100, but a call "today" = July 1, 2026 scores 80 and
flags the data as potentially outdated. The result is not independent of
the call time. -/
theorem validate_not_time_invariant :
    validate_financial_data
        ⟨some 1, some 1, some "Q1", some 2024, none, some 1, none, none,
          ⟨2024, 7, 1⟩⟩ ⟨2024, 7, 1⟩ ≠
      validate_financial_data
        ⟨some 1, some 1, some "Q1", some 2024, none, some 1, none, none,
          ⟨2024, 7, 1⟩⟩ ⟨2026, 7, 1⟩ := by
  decide

/-- C5, amended: `validate_financial_data` is a pure function of the input
record and of the fiscal year that `get_current_fiscal_period` computes
from the call date — two calls with equal records made at dates with the
same current fiscal year return equal results; the call date enters only
through that fiscal year. -/
theorem validate_determined_by_record_and_fiscal_year (data : FinData)
    (t1 t2 : CalDate)
    (h : (get_current_fiscal_period t1).2.1 = (get_current_fiscal_period t2).2.1) :
    validate_financial_data data t1 = validate_financial_data data t2 := by
  unfold validate_financial_data data_quality_score
  rw [h]

/-- Witness for `validate_determined_by_record_and_fiscal_year`: July 1
and August 2, 2025 share fiscal year 2025. -/
theorem validate_determined_witness :
    validate_financial_data
        ⟨some 1, none, some "Q1", some 2024, none, none, none, none,
          ⟨2025, 7, 1⟩⟩ ⟨2025, 7, 1⟩ =
      validate_financial_data
        ⟨some 1, none, some "Q1", some 2024, none, none, none, none,
          ⟨2025, 7, 1⟩⟩ ⟨2025, 8, 2⟩ :=
  validate_determined_by_record_and_fiscal_year _ _ _ (by decide)

/-- The fields of the yfinance `stock.info` dictionary read by
`get_enhanced_financial_data`; a missing key is `none`. -/
structure YInfo where
  totalRevenue : Option ℚ
  trailingEps : Option ℚ
  marketCap : Option ℚ
  revenueGrowth : Option ℚ
  fullTimeEmployees : Option ℚ
deriving DecidableEq, Repr

/-- The revenue adjustment `if revenue: revenue = revenue / 1e6 / 4`
(src/app.py lines 833-835): a truthy (present and non-zero) revenue is
scaled to a quarterly estimate in millions; `None` and `0` pass through. -/
def scale_revenue : Option ℚ → Option ℚ
  | none => none
  | some r => if r ≠ 0 then some (r / 1000000 / 4) else some r

/-- The growth adjustment
`info.get('revenueGrowth', 0) * 100 if info.get('revenueGrowth') else None`
(src/app.py line 844): a truthy growth is turned into a percentage,
anything falsy becomes `None`. -/
def scale_growth : Option ℚ → Option ℚ
  | none => none
  | some g => if g ≠ 0 then some (g * 100) else none

/-- The full record returned by `get_enhanced_financial_data`: the data
dictionary, the validation dictionary stored under `'validation'`, and the
`'error'` key that exists only on the exception path. -/
structure FinRecord where
  data : FinData
  validation : Validation
  error : Option String
deriving DecidableEq, Repr

/-- Python `str(e)[:50]`, over the embedded string. -/
def strTake (s : String) (n : Nat) : String :=
  ⟨s.data.take n⟩

/-- Embedding of `get_enhanced_financial_data` (src/app.py lines 823-863).
The yfinance lookup becomes an `Except` parameter: `.ok info` is a
successful `stock.info` fetch, `.error e` an exception with text `e`
(this includes the case where the body itself raises — the whole body sits
in the `try`). `datetime.now()` is the explicit `today`. On error the
function builds the sentinel record of lines 857-863; no exception
escapes. -/
def get_enhanced_financial_data (fetch : Except String YInfo)
    (today : CalDate) : FinRecord :=
  match fetch with
  | .ok info =>
    let p := get_current_fiscal_period today
    let data : FinData :=
      { revenue := scale_revenue info.totalRevenue
        eps := info.trailingEps
        quarter := some p.1
        fiscal_year := some p.2.1
        quarter_end_date := some p.2.2
        market_cap := info.marketCap
        revenue_growth := scale_growth info.revenueGrowth
        employees := info.fullTimeEmployees
        last_updated := today }
    { data := data
      validation := validate_financial_data data today
      error := none }
  | .error e =>
    let p := get_current_fiscal_period today
    { data :=
        { revenue := none
          eps := none
          quarter := some p.1
          fiscal_year := some p.2.1
          quarter_end_date := some p.2.2
          market_cap := none
          revenue_growth := none
          employees := none
          last_updated := today }
      validation :=
        ⟨0, "low", "No Data", ["API Error: " ++ strTake e 50]⟩
      error := some e }

/-- The fields of `stock.info` read by `get_company_info`. -/
structure CompanyYInfo where
  longName : Option String
  sector : Option String
  industry : Option String
  longBusinessSummary : Option String
  website : Option String
deriving DecidableEq, Repr

/-- The record returned by `get_company_info`. -/
structure CompanyInfo where
  name : String
  ticker : String
  sector : String
  industry : String
  description : String
  financial_data : FinRecord
  website : String
  error : Option String
deriving DecidableEq, Repr

/-- Embedding of `get_company_info` (src/app.py lines 976-999). The
yfinance lookup is the `Except` parameter `fetch`; the nested
`get_enhanced_financial_data` call receives its own fetch outcome
`finFetch`. On exception, the placeholder record of lines 993-999 is
returned. -/
def get_company_info (ticker : String) (fetch : Except String CompanyYInfo)
    (finFetch : Except String YInfo) (today : CalDate) : CompanyInfo :=
  match fetch with
  | .ok info =>
    { name := info.longName.getD ticker
      ticker := ticker
      sector := info.sector.getD "Technology"
      industry := info.industry.getD "Software"
      description :=
        strTake (info.longBusinessSummary.getD "Technology company") 300 ++ "..."
      financial_data := get_enhanced_financial_data finFetch today
      website := info.website.getD ""
      error := none }
  | .error e =>
    { name := ticker
      ticker := ticker
      sector := "Technology"
      industry := "Software"
      description := "Technology company"
      financial_data := get_enhanced_financial_data finFetch today
      website := ""
      error := some e }

/-- C4: on any exception, `get_enhanced_financial_data` returns the
sentinel record — revenue, eps, market_cap, revenue_growth and employees
all `None`, validation exactly {score 0, level "low", text "No Data"} with
the single issue "API Error: " followed by the exception text truncated to
50 characters — and `get_company_info` substitutes the placeholders name =
ticker, sector "Technology", industry "Software". Both embeddings are
total functions of the fetch outcome: no exception propagates. -/
theorem exception_paths_substitute_sentinels (e : String) (today : CalDate)
    (ticker : String) (finFetch : Except String YInfo) :
    (get_enhanced_financial_data (.error e) today).data.revenue = none ∧
    (get_enhanced_financial_data (.error e) today).data.eps = none ∧
    (get_enhanced_financial_data (.error e) today).data.market_cap = none ∧
    (get_enhanced_financial_data (.error e) today).data.revenue_growth = none ∧
    (get_enhanced_financial_data (.error e) today).data.employees = none ∧
    (get_enhanced_financial_data (.error e) today).validation =
      ⟨0, "low", "No Data", ["API Error: " ++ strTake e 50]⟩ ∧
    (get_company_info ticker (.error e) finFetch today).name = ticker ∧
    (get_company_info ticker (.error e) finFetch today).sector = "Technology" ∧
    (get_company_info ticker (.error e) finFetch today).industry = "Software" := by
  refine ⟨rfl, rfl, rfl, rfl, rfl, rfl, rfl, rfl, rfl⟩

/-- Concrete evaluation of the exception path: a lookup failing with a
62-character exception text on October 15, 2025 records the text truncated
to 50 characters behind the "API Error: " prefix. -/
theorem exception_truncation_example :
    (get_enhanced_financial_data
        (.error "HTTPSConnectionPool timeout 0123456789012345678901234567890123")
        ⟨2025, 10, 15⟩).validation.issues =
      ["API Error: HTTPSConnectionPool timeout 0123456789012345678901"] := by
  decide

/-- The outdated message starts with 'D', so it can never equal one of the
"Missing ..." messages. -/
theorem outdatedMsg_ne_missing (y : Int) (s : String)
    (hs : s.data.head? = some 'M') : outdatedMsg y ≠ s := by
  intro h
  rw [← h] at hs
  rw [show (outdatedMsg y).data.head? = some 'D' from rfl] at hs
  exact absurd hs (by decide)

/-- The outdated message is not among the presence issues, whichever
fields are present. -/
theorem outdated_not_in_presence (y : Int) (b1 b2 b3 : Bool) :
    outdatedMsg y ∉
      ((if b1 = true then ([] : List String) else ["Missing revenue data"]) ++
        (if b2 = true then [] else ["Missing EPS data"]) ++
        (if b3 = true then [] else ["Missing market cap"]) ++ []) := by
  have h1 := outdatedMsg_ne_missing y "Missing revenue data" (by decide)
  have h2 := outdatedMsg_ne_missing y "Missing EPS data" (by decide)
  have h3 := outdatedMsg_ne_missing y "Missing market cap" (by decide)
  rcases b1 <;> rcases b2 <;> rcases b3 <;> simp [h1, h2, h3]

/-- When a record carries exactly the quarter and fiscal year of
`get_current_fiscal_period` at the same date, the recency branch awards
20 points and raises no issue (the year ≥ 2 bound keeps the fiscal year
non-zero, i.e. truthy). -/
theorem recency_points_of_current_period (d : FinData) (today : CalDate)
    (hq : d.quarter = some (get_current_fiscal_period today).1)
    (hf : d.fiscal_year = some (get_current_fiscal_period today).2.1)
    (hy : 2 ≤ today.year) :
    recency_points d today = 20 ∧ recency_issues d today = [] := by
  have hne : (get_current_fiscal_period today).1 ≠ "" ∧
      (get_current_fiscal_period today).2.1 ≠ 0 := by
    rw [get_current_fiscal_period_eq]
    by_cases h7 : 7 ≤ today.month
    · simp only [h7, if_true]
      exact ⟨by decide, by omega⟩
    · simp only [h7, if_false]
      exact ⟨by decide, by omega⟩
  unfold recency_points recency_issues
  rw [hq, hf]
  dsimp only
  simp [hne.1, hne.2]

/-- C9: every record returned by `get_enhanced_financial_data` — success
and exception path alike — carries quarter, fiscal_year and
quarter_end_date verbatim from `get_current_fiscal_period` at the call
date; consequently, on every successful fetch the validation score is the
presence points plus exactly 20 recency points, and the "potentially
outdated" issue is never raised. -/
theorem enhanced_data_period_is_current (fetch : Except String YInfo)
    (today : CalDate) (hy : 2 ≤ today.year) :
    ((get_enhanced_financial_data fetch today).data.quarter =
        some (get_current_fiscal_period today).1 ∧
      (get_enhanced_financial_data fetch today).data.fiscal_year =
        some (get_current_fiscal_period today).2.1 ∧
      (get_enhanced_financial_data fetch today).data.quarter_end_date =
        some (get_current_fiscal_period today).2.2) ∧
    ∀ info, fetch = .ok info →
      (get_enhanced_financial_data fetch today).validation.score =
          (if (get_enhanced_financial_data fetch today).data.revenue.isSome
            then 30 else 0) +
          (if (get_enhanced_financial_data fetch today).data.eps.isSome
            then 30 else 0) +
          (if (get_enhanced_financial_data fetch today).data.market_cap.isSome
            then 20 else 0) + 20 ∧
      ∀ y, outdatedMsg y ∉ (get_enhanced_financial_data fetch today).validation.issues := by
  constructor
  · cases fetch <;> exact ⟨rfl, rfl, rfl⟩
  · rintro info rfl
    have hq : (get_enhanced_financial_data (.ok info) today).data.quarter =
        some (get_current_fiscal_period today).1 := rfl
    have hf : (get_enhanced_financial_data (.ok info) today).data.fiscal_year =
        some (get_current_fiscal_period today).2.1 := rfl
    have hrec := recency_points_of_current_period
      (get_enhanced_financial_data (.ok info) today).data today hq hf hy
    have hv : (get_enhanced_financial_data (.ok info) today).validation =
        validate_financial_data
          (get_enhanced_financial_data (.ok info) today).data today := rfl
    constructor
    · rw [hv, validate_score_eq, data_quality_score_eq]
      dsimp only
      rw [hrec.1]
    · intro y
      rw [hv, validate_issues_eq, data_quality_score_eq]
      dsimp only
      rw [hrec.2]
      exact outdated_not_in_presence y _ _ _

/-- Witness for `enhanced_data_period_is_current`: a successful fetch on
October 15, 2025. -/
theorem enhanced_data_period_witness :
    ((get_enhanced_financial_data
          (.ok ⟨some 1000000000, some 2, some 50000, some (1 / 10), some 100⟩)
          ⟨2025, 10, 15⟩).data.quarter =
        some (get_current_fiscal_period ⟨2025, 10, 15⟩).1 ∧
      (get_enhanced_financial_data
          (.ok ⟨some 1000000000, some 2, some 50000, some (1 / 10), some 100⟩)
          ⟨2025, 10, 15⟩).data.fiscal_year =
        some (get_current_fiscal_period ⟨2025, 10, 15⟩).2.1 ∧
      (get_enhanced_financial_data
          (.ok ⟨some 1000000000, some 2, some 50000, some (1 / 10), some 100⟩)
          ⟨2025, 10, 15⟩).data.quarter_end_date =
        some (get_current_fiscal_period ⟨2025, 10, 15⟩).2.2) ∧
    ∀ info,
      (.ok ⟨some 1000000000, some 2, some 50000, some (1 / 10), some 100⟩ :
          Except String YInfo) = .ok info →
      (get_enhanced_financial_data
            (.ok ⟨some 1000000000, some 2, some 50000, some (1 / 10), some 100⟩)
            ⟨2025, 10, 15⟩).validation.score =
          (if (get_enhanced_financial_data
                (.ok ⟨some 1000000000, some 2, some 50000, some (1 / 10), some 100⟩)
                ⟨2025, 10, 15⟩).data.revenue.isSome
            then 30 else 0) +
          (if (get_enhanced_financial_data
                (.ok ⟨some 1000000000, some 2, some 50000, some (1 / 10), some 100⟩)
                ⟨2025, 10, 15⟩).data.eps.isSome
            then 30 else 0) +
          (if (get_enhanced_financial_data
                (.ok ⟨some 1000000000, some 2, some 50000, some (1 / 10), some 100⟩)
                ⟨2025, 10, 15⟩).data.market_cap.isSome
            then 20 else 0) + 20 ∧
      ∀ y, outdatedMsg y ∉
        (get_enhanced_financial_data
            (.ok ⟨some 1000000000, some 2, some 50000, some (1 / 10), some 100⟩)
            ⟨2025, 10, 15⟩).validation.issues :=
  enhanced_data_period_is_current
    (.ok ⟨some 1000000000, some 2, some 50000, some (1 / 10), some 100⟩)
    ⟨2025, 10, 15⟩ (by norm_num)

/-- Python `str.startswith`, over the embedded string. -/
def strStartsWith (s p : String) : Bool :=
  s.data.take p.data.length = p.data

/-- Embedding of the startup API-key validation (src/app.py lines 47-59):
the three `st.stop()` gates run in order before any dashboard UI. The key
as loaded is `none` when nothing was found; `api_key_gate` is `true`
exactly when control flows past all three gates to the dashboard.
Gate 1: `if not openai_api_key` (falsy: missing or empty). Gate 2:
`if not openai_api_key.startswith('sk-')`. Gate 3:
`if len(openai_api_key) < 50`. -/
def api_key_gate (key : Option String) : Bool :=
  match key with
  | none => false
  | some k =>
    if k = "" then false
    else if strStartsWith k "sk-" = false then false
    else if k.length < 50 then false
    else true

/-- C10: a run reaches the dashboard exactly when an API key was found
that starts with "sk-" and has at least 50 characters. -/
theorem api_key_gate_iff (key : Option String) :
    api_key_gate key = true ↔
      ∃ k, key = some k ∧ strStartsWith k "sk-" = true ∧ 50 ≤ k.length := by
  constructor
  · intro h
    match key with
    | none => exact absurd h (by decide)
    | some k =>
      unfold api_key_gate at h
      dsimp only at h
      split_ifs at h with h1 h2 h3
      exact ⟨k, rfl, by simpa using h2, by omega⟩
  · rintro ⟨k, rfl, hsw, hlen⟩
    unfold api_key_gate
    have h1 : k ≠ "" := by
      intro hk
      subst hk
      exact absurd hsw (by decide)
    have h2 : ¬ strStartsWith k "sk-" = false := by simp [hsw]
    have h3 : ¬ k.length < 50 := by omega
    simp [h1, h2, h3]

/-- Python truthiness for an optional number: present and non-zero. -/
def truthyQ : Option ℚ → Bool
  | none => false
  | some r => if r = 0 then false else true

/-- One iteration of the revenue loop of `create_modern_chart`
(src/app.py lines 1032-1039) for quarter age `i` (0 = most recent). The
`random.randint(800, 2000)` draw of iteration `i` is `baseRand i`, the
`random.uniform(0.95, 1.05)` draw is `varRand i`; both are evaluated only
on the branch that uses them, so passing them as functions of `i` is
faithful. -/
def chart_point (revenue : Option ℚ) (baseRand : ℕ → ℤ) (varRand : ℕ → ℚ)
    (i : ℕ) : ℚ :=
  if truthyQ revenue = true ∧ i = 0 then revenue.getD 0
  else
    let base : ℚ := if truthyQ revenue = true then revenue.getD 0
      else (baseRand i : ℚ)
    let variance : ℚ := if 0 < i then varRand i else 1
    base * variance * (1 - (i : ℚ) * (2 / 100))

/-- The four plotted revenue values of `create_modern_chart`, oldest
first: the loop inserts each value at position 0, so ages run 3, 2, 1, 0
across the final list. -/
def create_modern_chart_revenues (revenue : Option ℚ) (baseRand : ℕ → ℤ)
    (varRand : ℕ → ℚ) : List ℚ :=
  (List.range 4).foldl
    (fun revs i => chart_point revenue baseRand varRand i :: revs) []

/-- C6: with a real (truthy) revenue figure `r`, the most recent plotted
value is exactly `r`, each older value of age `i` is `r` times the
variance draw of that iteration times the decay `1 - 0.02 * i`, and the
`randint` fallback draw never influences the output; without a real
figure, the base of each value is that iteration's `randint` draw
instead. -/
theorem chart_revenue_values (r : ℚ) (hr : r ≠ 0)
    (baseRand baseRand2 : ℕ → ℤ) (varRand : ℕ → ℚ) :
    create_modern_chart_revenues (some r) baseRand varRand =
        [r * varRand 3 * (1 - 3 * (2 / 100)),
          r * varRand 2 * (1 - 2 * (2 / 100)),
          r * varRand 1 * (1 - 2 / 100), r] ∧
    create_modern_chart_revenues (some r) baseRand varRand =
        create_modern_chart_revenues (some r) baseRand2 varRand ∧
    create_modern_chart_revenues none baseRand varRand =
        [(baseRand 3 : ℚ) * varRand 3 * (1 - 3 * (2 / 100)),
          (baseRand 2 : ℚ) * varRand 2 * (1 - 2 * (2 / 100)),
          (baseRand 1 : ℚ) * varRand 1 * (1 - 2 / 100),
          (baseRand 0 : ℚ)] := by
  refine ⟨?_, ?_, ?_⟩ <;>
    simp [create_modern_chart_revenues, chart_point, truthyQ, hr,
      List.range_succ] <;>
    norm_num

/-- Witness for `chart_revenue_values` at `r = 100` with constant draws
`baseRand = 1000`, `varRand = 1`. -/
theorem chart_revenue_values_witness :
    create_modern_chart_revenues (some 100) (fun _ => 1000) (fun _ => 1) =
        [100 * (1 : ℚ) * (1 - 3 * (2 / 100)),
          100 * (1 : ℚ) * (1 - 2 * (2 / 100)),
          100 * (1 : ℚ) * (1 - 2 / 100), 100] ∧
    create_modern_chart_revenues (some 100) (fun _ => 1000) (fun _ => 1) =
        create_modern_chart_revenues (some 100) (fun _ => 999) (fun _ => 1) ∧
    create_modern_chart_revenues none (fun _ => 1000) (fun _ => 1) =
        [((1000 : ℤ) : ℚ) * 1 * (1 - 3 * (2 / 100)),
          ((1000 : ℤ) : ℚ) * 1 * (1 - 2 * (2 / 100)),
          ((1000 : ℤ) : ℚ) * 1 * (1 - 2 / 100),
          ((1000 : ℤ) : ℚ)] :=
  chart_revenue_values 100 (by norm_num) (fun _ => 1000) (fun _ => 999)
    (fun _ => 1)

/-- The characters stripped by Python `str.strip()` with no argument
(ASCII whitespace; the inputs at hand contain no other whitespace). -/
def pyIsSpace (c : Char) : Bool :=
  c == ' ' || c == '\t' || c == '\n' || c == '\r' || c == '\x0b' || c == '\x0c'

/-- Drop matching characters from the end of a character list. -/
def dropEnd (p : Char → Bool) (l : List Char) : List Char :=
  (l.reverse.dropWhile p).reverse

/-- Python `str.strip()`: whitespace removed from both ends. -/
def pyStrip (s : String) : String :=
  ⟨dropEnd pyIsSpace (s.data.dropWhile pyIsSpace)⟩

/-- Python `str.strip('"')`: every leading and trailing double quote
removed. -/
def stripQuotes (s : String) : String :=
  ⟨dropEnd (fun c => c == '"') (s.data.dropWhile (fun c => c == '"'))⟩

/-- Python `str.replace(pat, rep)` on character lists: every
non-overlapping occurrence of `pat` replaced left to right. The fuel is
the remaining input length, consumed one unit per step, so it never runs
out when started at the input's length. -/
def replaceFuel (pat rep : List Char) : Nat → List Char → List Char
  | _, [] => []
  | 0, l => l
  | fuel + 1, c :: rest =>
    if pat ≠ [] ∧ (c :: rest).take pat.length = pat then
      rep ++ replaceFuel pat rep fuel ((c :: rest).drop pat.length)
    else
      c :: replaceFuel pat rep fuel rest

/-- Python `s.replace(pat, rep)`. -/
def pyReplace (s pat rep : String) : String :=
  ⟨replaceFuel pat.data rep.data s.data.length s.data⟩

/-- Python `str.split(sep)` on character lists: split at every
non-overlapping occurrence of `sep`, keeping empty pieces. `acc` holds
the current piece reversed; the fuel argument is as in `replaceFuel`. -/
def splitOnAuxF (sep : List Char) : Nat → List Char → List Char → List (List Char)
  | _, acc, [] => [acc.reverse]
  | 0, acc, l => [acc.reverse ++ l]
  | fuel + 1, acc, c :: rest =>
    if sep ≠ [] ∧ (c :: rest).take sep.length = sep then
      acc.reverse :: splitOnAuxF sep fuel [] ((c :: rest).drop sep.length)
    else
      splitOnAuxF sep fuel (c :: acc) rest

/-- Python `s.split(sep)`. -/
def pySplit (s sep : String) : List String :=
  (splitOnAuxF sep.data s.data.length [] s.data).map fun l => ⟨l⟩

/-- The line list of one sec (src/app.py line 1206):
`[line.strip() for line in sec.strip().split('\n') if line.strip()]`. -/
def lineItems (sec : String) : List String :=
  ((pySplit (pyStrip sec) "\n").map pyStrip).filter fun l => l != ""

/-- One parsed result card of `display_search_results_modern`. -/
structure SearchResult where
  company : String
  executive : String
  quote : String
  source : String
  relevance : String
deriving DecidableEq, Repr

/-- Embedding of the parsing part of `display_search_results_modern`
(src/app.py lines 1201-1215): split the LLM response on `'---'`, and for
each sec whose stripped text is non-empty and that has at least 4
non-empty stripped lines, build a result card from the first five lines
with `str.replace` of the marker and `strip` (and `strip('"')` for the
quote); the rendering of each card is beyond the embedding, as is the
early return that skips parsing entirely for responses containing
"Error:" or "unavailable" (lines 1182-1190). -/
def display_search_results_parse (results : String) : List SearchResult :=
  (pySplit results "---").foldl
    (fun acc sec =>
      if pyStrip sec ≠ "" then
        if 4 ≤ (lineItems sec).length then
          acc ++
            [{ company :=
                pyStrip (pyReplace ((lineItems sec).getD 0 "") "COMPANY:" "")
               executive :=
                pyStrip (pyReplace ((lineItems sec).getD 1 "") "EXECUTIVE:" "")
               quote :=
                stripQuotes
                  (pyStrip (pyReplace ((lineItems sec).getD 2 "") "QUOTE:" ""))
               source :=
                pyStrip (pyReplace ((lineItems sec).getD 3 "") "SOURCE:" "")
               relevance :=
                if 4 < (lineItems sec).length then
                  pyStrip (pyReplace ((lineItems sec).getD 4 "") "RELEVANCE:" "")
                else "" }]
        else acc
      else acc) []

/-- Modelled from the claim: remove the marker only when it is a leading
prefix of the line (as "the fixed prefixes ... removed" reads), leaving
the line unchanged otherwise. -/
def dropMarker (marker s : String) : String :=
  if strStartsWith s marker = true then ⟨s.data.drop marker.data.length⟩ else s

/-- Modelled from the claim, prefix-removal reading: the record built
from a sec's line list when it has at least 4 lines. -/
def section_record_by_marker : List String → Option SearchResult
  | c :: e :: q :: s :: rest =>
    some { company := pyStrip (dropMarker "COMPANY:" c)
           executive := pyStrip (dropMarker "EXECUTIVE:" e)
           quote := stripQuotes (pyStrip (dropMarker "QUOTE:" q))
           source := pyStrip (dropMarker "SOURCE:" s)
           relevance :=
             match rest with
             | r :: _ => pyStrip (dropMarker "RELEVANCE:" r)
             | [] => "" }
  | _ => none

/-- Modelled from the claim, prefix-removal reading of the whole parse. -/
def extract_sections_by_marker (results : String) : List SearchResult :=
  (pySplit results "---").filterMap fun sec =>
    section_record_by_marker (lineItems sec)

/-- The record built from a sec's line list when it has at least four
lines, with every occurrence of the markers replaced away (`str.replace`
semantics); `none` on fewer than four lines. Spec-side characterization of
the code's per-sec work, written by pattern matching rather than
indexing. -/
def section_record : List String → Option SearchResult
  | c :: e :: q :: s :: rest =>
    some { company := pyStrip (pyReplace c "COMPANY:" "")
           executive := pyStrip (pyReplace e "EXECUTIVE:" "")
           quote := stripQuotes (pyStrip (pyReplace q "QUOTE:" ""))
           source := pyStrip (pyReplace s "SOURCE:" "")
           relevance :=
             match rest with
             | r :: _ => pyStrip (pyReplace r "RELEVANCE:" "")
             | [] => "" }
  | _ => none

/-- Spec-side characterization of the whole parse: one record per
sec with at least four non-empty stripped lines, in order. -/
def extract_quote_sections (results : String) : List SearchResult :=
  (pySplit results "---").filterMap fun sec =>
    section_record (lineItems sec)


/-- A section whose stripped text is empty has no non-empty lines. -/
theorem lineItems_of_strip_empty (sec : String) (h : pyStrip sec = "") :
    lineItems sec = [] := by
  unfold lineItems
  rw [h]
  rfl

/-- On a line list with at least four entries, `section_record` builds the
record the code's indexing builds. -/
theorem section_record_of_ge (lines : List String) (h : 4 ≤ lines.length) :
    section_record lines =
      some { company := pyStrip (pyReplace (lines.getD 0 "") "COMPANY:" "")
             executive := pyStrip (pyReplace (lines.getD 1 "") "EXECUTIVE:" "")
             quote :=
              stripQuotes (pyStrip (pyReplace (lines.getD 2 "") "QUOTE:" ""))
             source := pyStrip (pyReplace (lines.getD 3 "") "SOURCE:" "")
             relevance :=
              if 4 < lines.length then
                pyStrip (pyReplace (lines.getD 4 "") "RELEVANCE:" "")
              else "" } := by
  match lines with
  | [] => simp at h
  | [c] => simp at h
  | [c, e] => simp at h
  | [c, e, q] => simp at h
  | c :: e :: q :: s :: rest =>
    rcases rest with _ | ⟨r, rest2⟩
    · simp [section_record]
    · simp [section_record]

/-- On a line list with fewer than four entries, `section_record` builds
nothing. -/
theorem section_record_of_lt (lines : List String) (h : lines.length < 4) :
    section_record lines = none := by
  match lines with
  | [] => rfl
  | [c] => rfl
  | [c, e] => rfl
  | [c, e, q] => rfl
  | c :: e :: q :: s :: rest => exact absurd h (by simp)

/-- C7, counterexample: on the single-section response
"x COMPANY:y\na\nb\nc", the code's `str.replace` removes the interior
occurrence of "COMPANY:", producing company "x y", while removing the
prefixes as the claim states would leave "x COMPANY:y" unchanged; the
parse is not prefix removal. -/
theorem display_parse_not_by_marker :
    display_search_results_parse "x COMPANY:y\na\nb\nc" ≠
      extract_sections_by_marker "x COMPANY:y\na\nb\nc" := by
  decide

/-- C7, amended: the parse is pure string splitting — split on "---",
split each section into non-empty stripped lines, drop every section with
fewer than 4 such lines, and take the first five lines with every
occurrence of "COMPANY:", "EXECUTIVE:", "QUOTE:" (then surrounding double
quotes), "SOURCE:" and optionally "RELEVANCE:" replaced away in that
order (`str.replace`, not just a leading prefix). -/
theorem display_parse_characterization (results : String) :
    display_search_results_parse results = extract_quote_sections results := by
  unfold display_search_results_parse extract_quote_sections
  suffices h : ∀ (secs : List String) (acc : List SearchResult),
      secs.foldl
        (fun acc sec =>
          if pyStrip sec ≠ "" then
            if 4 ≤ (lineItems sec).length then
              acc ++
                [{ company :=
                    pyStrip (pyReplace ((lineItems sec).getD 0 "") "COMPANY:" "")
                   executive :=
                    pyStrip (pyReplace ((lineItems sec).getD 1 "") "EXECUTIVE:" "")
                   quote :=
                    stripQuotes
                      (pyStrip (pyReplace ((lineItems sec).getD 2 "") "QUOTE:" ""))
                   source :=
                    pyStrip (pyReplace ((lineItems sec).getD 3 "") "SOURCE:" "")
                   relevance :=
                    if 4 < (lineItems sec).length then
                      pyStrip (pyReplace ((lineItems sec).getD 4 "") "RELEVANCE:" "")
                    else "" }]
            else acc
          else acc) acc =
        acc ++ secs.filterMap (fun sec => section_record (lineItems sec)) by
    simpa using h (pySplit results "---") []
  intro secs
  induction secs with
  | nil => intro acc; simp
  | cons x xs ih =>
    intro acc
    simp only [List.foldl_cons, List.filterMap_cons]
    by_cases hx : pyStrip x = ""
    · have hl : lineItems x = [] := lineItems_of_strip_empty x hx
      rw [if_neg (by simp [hx]), hl]
      simp only [section_record, ih, List.append_assoc]
    · rw [if_pos hx]
      by_cases hlen : 4 ≤ (lineItems x).length
      · rw [if_pos hlen, section_record_of_ge _ hlen, ih]
        simp [List.append_assoc]
      · rw [if_neg hlen, section_record_of_lt _ (by omega), ih]
